import Mathlib

set_option maxHeartbeats 1000000

/- Shallow embedding of the Website-Generator repository
   (src/app/prompts.py, src/app/generator.py, src/main.py).

   Randomness and the hosted language model are modelled as explicit
   oracles: every `random.*` draw and every model response appears as a
   parameter, constrained (where a statement needs it) by exactly the
   range the library call guarantees, and a model response of `none`
   stands for a raised exception at that call.  Sampling parameters are
   rationals; the two places the source multiplies an integer by a float
   (`max_tokens * 0.75` and `word_count * 1.3`) are modelled by exact
   integer arithmetic, which agrees with the float computation for all
   realistic magnitudes (0.75 is dyadic, and the floor of `n * 1.3`
   cannot be perturbed by an error of order `n * 2 ^ (-50)`). -/

/-- A colour triple from the table in `_get_random_colors`
(src/app/generator.py). -/
structure ColorScheme where
  primary : String
  secondary : String
  accent : String
deriving DecidableEq, Repr

/-- One heading/type pair of a section catalog (`PromptManager.section_types`,
src/app/prompts.py). -/
structure SectionEntry where
  heading : String
  type : String
deriving DecidableEq, Repr

/-- One element of the list returned by `get_section_prompts`
(src/app/prompts.py): a heading together with the content prompt built
for it. -/
structure SectionPrompt where
  heading : String
  prompt : String
deriving DecidableEq, Repr

/-- One generated section as assembled by `_generate_sections`
(src/app/generator.py): a heading with its generated content. -/
structure SectionData where
  heading : String
  content : String
deriving DecidableEq, Repr

/-- The dictionary returned by `_generate_single` (src/app/generator.py). -/
structure SiteRecord where
  site_id : String
  title : String
  meta_description : String
  file_path : String
  sections_count : ℕ
  tokens_used : ℕ
  template_style : String
  timestamp : String
deriving DecidableEq, Repr

/-- `self.title_variations` of `PromptManager.__init__` (src/app/prompts.py). -/
def title_variations : List String :=
  [ "Create a compelling title about \x7btopic\x7d. Style: \x7bstyle\x7d. Be unique and engaging.",
    "Generate an innovative title for \x7btopic\x7d. Use \x7bstyle\x7d tone. Be creative.",
    "Craft a distinctive title covering \x7btopic\x7d. \x7bstyle\x7d approach. Make it memorable.",
    "Design a captivating title for \x7btopic\x7d. Apply \x7bstyle\x7d style. Stand out.",
    "Produce an original title focused on \x7btopic\x7d. \x7bstyle\x7d perspective. Avoid clichés." ]

/-- `self.meta_variations` of `PromptManager.__init__` (src/app/prompts.py). -/
def meta_variations : List String :=
  [ "Write a meta description (150-160 chars) for a \x7bstyle\x7d website about \x7btopic\x7d.",
    "Create an SEO-optimized meta description about \x7btopic\x7d. Style: \x7bstyle\x7d. Under 160 characters.",
    "Generate a unique meta description for \x7btopic\x7d. Use \x7bstyle\x7d tone. 150-160 characters.",
    "Craft an engaging meta description covering \x7btopic\x7d. \x7bstyle\x7d style. Optimize for search." ]

/-- The local `variation_suffix` list of `get_title_prompt`
(src/app/prompts.py): the eight focus suffixes. -/
def variation_suffix : List String :=
  [ " Focus on innovation.",
    " Emphasize practical aspects.",
    " Highlight cutting-edge developments.",
    " Stress accessibility and clarity.",
    " Showcase real-world impact.",
    " Emphasize technical depth.",
    " Focus on business value.",
    " Highlight emerging trends." ]

/-- `self.section_types["educational"]` (src/app/prompts.py). -/
def educational_sections : List SectionEntry :=
  [ ⟨"Introduction", "intro"⟩,
    ⟨"Understanding the Fundamentals", "fundamentals"⟩,
    ⟨"Key Concepts Explained", "concepts"⟩,
    ⟨"Real-World Applications", "applications"⟩,
    ⟨"Common Challenges and Solutions", "challenges"⟩,
    ⟨"Best Practices", "best_practices"⟩,
    ⟨"Future Outlook", "future"⟩,
    ⟨"Getting Started", "getting_started"⟩,
    ⟨"Resources and Tools", "resources"⟩,
    ⟨"Conclusion", "conclusion"⟩ ]

/-- `self.section_types["marketing"]` (src/app/prompts.py). -/
def marketing_sections : List SectionEntry :=
  [ ⟨"Why This Matters", "value_prop"⟩,
    ⟨"Transform Your Business", "transformation"⟩,
    ⟨"Proven Benefits", "benefits"⟩,
    ⟨"Success Stories", "testimonials"⟩,
    ⟨"How It Works", "process"⟩,
    ⟨"Get Started Today", "cta"⟩,
    ⟨"Industry Leadership", "authority"⟩,
    ⟨"What Sets Us Apart", "differentiation"⟩,
    ⟨"ROI and Value", "roi"⟩,
    ⟨"Join Thousands of Satisfied Users", "social_proof"⟩ ]

/-- `self.section_types["technical"]` (src/app/prompts.py). -/
def technical_sections : List SectionEntry :=
  [ ⟨"Technical Overview", "overview"⟩,
    ⟨"Architecture and Design", "architecture"⟩,
    ⟨"Implementation Details", "implementation"⟩,
    ⟨"API and Integration", "api"⟩,
    ⟨"Performance Considerations", "performance"⟩,
    ⟨"Security Features", "security"⟩,
    ⟨"Scalability", "scalability"⟩,
    ⟨"Code Examples", "examples"⟩,
    ⟨"Troubleshooting", "troubleshooting"⟩,
    ⟨"Advanced Topics", "advanced"⟩ ]

/-- Membership test `style in self.section_types` for the three-key
dictionary `section_types` (src/app/prompts.py). -/
def section_types_mem (s : String) : Bool :=
  s == "educational" || s == "marketing" || s == "technical"

/-- Lookup `self.section_types[k]`; it is only ever applied to a key that
passed `section_types_mem` (the source indexes the dict with such a key),
so the final branch is the "educational" entry. -/
def section_types_lookup (k : String) : List SectionEntry :=
  if k = "marketing" then marketing_sections
  else if k = "technical" then technical_sections
  else educational_sections

/-- `style_key = style if style in self.section_types else "educational"`
(src/app/prompts.py, `get_section_prompts`). -/
def style_key (style : String) : String :=
  if section_types_mem style then style else "educational"

/-- Python `str.format` restricted to the `{topic}` and `{style}`
placeholders used by the title/meta prompt templates (src/app/prompts.py). -/
def format_topic_style (t : String) (topic style : String) : String :=
  (t.replace "\x7btopic\x7d" topic).replace "\x7bstyle\x7d" style

/-- `PromptManager.get_title_prompt` (src/app/prompts.py): the
`random.choice` over `title_variations` is the explicit `choice`
argument; the focus suffix is selected by `index % 8` as in the source. -/
def get_title_prompt (choice : Fin 5) (topic style : String) (index : ℕ) : String :=
  format_topic_style (title_variations.getD choice.val "") topic style
    ++ variation_suffix.getD (index % 8) ""

/-- `PromptManager.get_meta_prompt` (src/app/prompts.py), with the
`random.choice` over `meta_variations` explicit. -/
def get_meta_prompt (choice : Fin 4) (topic style : String) : String :=
  format_topic_style (meta_variations.getD choice.val "") topic style

/-- The `base_prompts` dictionary of `_create_section_prompt`
(src/app/prompts.py). -/
def base_prompts (section_type : String) : Option String :=
  if section_type = "intro" then
    some "Write an engaging introduction about \x7btopic\x7d. Set context. Style: \x7bstyle\x7d. Length: \x7btokens\x7d words."
  else if section_type = "fundamentals" then
    some "Explain fundamental concepts of \x7btopic\x7d. Clear and accessible. Style: \x7bstyle\x7d. Length: \x7btokens\x7d words."
  else if section_type = "applications" then
    some "Describe real-world applications of \x7btopic\x7d. Specific examples. Style: \x7bstyle\x7d. Length: \x7btokens\x7d words."
  else if section_type = "challenges" then
    some "Discuss challenges and solutions for \x7btopic\x7d. Be practical. Style: \x7bstyle\x7d. Length: \x7btokens\x7d words."
  else if section_type = "future" then
    some "Explore future trends in \x7btopic\x7d. Be forward-thinking. Style: \x7bstyle\x7d. Length: \x7btokens\x7d words."
  else if section_type = "value_prop" then
    some "Explain why \x7btopic\x7d matters. Be persuasive. Style: \x7bstyle\x7d. Length: \x7btokens\x7d words."
  else if section_type = "benefits" then
    some "List key benefits of \x7btopic\x7d. Focus on outcomes. Style: \x7bstyle\x7d. Length: \x7btokens\x7d words."
  else if section_type = "process" then
    some "Describe how \x7btopic\x7d works. Be methodical. Style: \x7bstyle\x7d. Length: \x7btokens\x7d words."
  else if section_type = "technical" then
    some "Provide technical details about \x7btopic\x7d. Be specific. Style: \x7bstyle\x7d. Length: \x7btokens\x7d words."
  else if section_type = "architecture" then
    some "Explain architecture of \x7btopic\x7d. Be detailed. Style: \x7bstyle\x7d. Length: \x7btokens\x7d words."
  else none

/-- `PromptManager._create_section_prompt` (src/app/prompts.py).
`word_count = int(max_tokens * 0.75)` is exact integer arithmetic
(`0.75` is dyadic, so the float product is exact): `3 * max_tokens / 4`. -/
def create_section_prompt (topic heading section_type style : String)
    (max_tokens : ℕ) : String :=
  let template := (base_prompts section_type).getD
    "Write comprehensive content about \x7btopic\x7d for \x27\x7bheading\x7d\x27. Style: \x7bstyle\x7d. Length: \x7btokens\x7d words."
  let word_target := 3 * max_tokens / 4
  ((((template.replace "\x7btopic\x7d" topic).replace "\x7bheading\x7d" heading).replace
      "\x7bstyle\x7d" style).replace "\x7btokens\x7d" (Nat.repr word_target))

/-- `PromptManager.get_section_prompts` (src/app/prompts.py): the
`random.sample` outcome is the explicit `sel`, the list of distinct
catalog indices in sampling order (its length is `min` of the
`random.randint(3,5)` draw and the catalog size, which the statements
carry as a hypothesis).  Indexing uses `getD` with a junk default; every
index of `sel` is below the catalog length 10, so the default is never
produced. -/
def get_section_prompts (topic style : String) (max_tokens : ℕ)
    (sel : List (Fin 10)) : List SectionPrompt :=
  let catalog := section_types_lookup (style_key style)
  sel.map (fun ix =>
    let e := catalog.getD ix.val ⟨"", ""⟩
    { heading := e.heading
      prompt := create_section_prompt topic e.heading e.type style max_tokens })

/-- The `schemes` table of `_get_random_colors` (src/app/generator.py). -/
def color_schemes : List ColorScheme :=
  [ ⟨"#667eea", "#764ba2", "#f093fb"⟩,
    ⟨"#f093fb", "#f5576c", "#4facfe"⟩,
    ⟨"#43e97b", "#38f9d7", "#667eea"⟩,
    ⟨"#fa709a", "#fee140", "#30cfd0"⟩,
    ⟨"#a8edea", "#fed6e3", "#667eea"⟩,
    ⟨"#ff9a9e", "#fecfef", "#667eea"⟩,
    ⟨"#ffecd2", "#fcb69f", "#ff6e7f"⟩,
    ⟨"#e0c3fc", "#8ec5fc", "#667eea"⟩,
    ⟨"#09203f", "#537895", "#ffd700"⟩,
    ⟨"#ee0979", "#ff6a00", "#00f2fe"⟩,
    ⟨"#0f2027", "#203a43", "#2c5364"⟩,
    ⟨"#360033", "#0b8793", "#ff512f"⟩ ]

/-- `_get_random_colors` (src/app/generator.py) with the `random.choice`
index explicit. -/
def get_random_colors (choice : Fin 12) : ColorScheme :=
  color_schemes.getD choice.val ⟨"", "", ""⟩

/-- Concatenation of a Jinja `{% for section in sections %}` body over the
section list, with the 0-based position available to the body (the
templates use the 1-based `loop.index`, i.e. position + 1). -/
def renderSectionsWith (f : ℕ → SectionData → String) : ℕ → List SectionData → String
  | _, [] => ""
  | i, s :: rest => f i s ++ renderSectionsWith f (i + 1) rest
/-- Faithful transcription of the Jinja template produced by
`_get_modern_template` in src/app/generator.py: the HTML text is kept
verbatim as literal chunks around the substitution points, and each
Jinja for-loop over `sections` becomes `renderSectionsWith`. -/
def render_modern (site_id title meta_description : String) (sections : List SectionData) (color_scheme : ColorScheme) (timestamp : String) : String :=
  "<!DOCTYPE html>\n<html lang=\"en\">\n<head>\n    <meta charset=\"UTF-8\">\n    <meta name=\"viewport\" content=\"width=device-width, initial-scale=1.0\">\n    <meta name=\"description\" content=\"" ++
  meta_description ++
  "\">\n    <title>" ++
  title ++
  "</title>\n    <style>\n        * \x7b margin: 0; padding: 0; box-sizing: border-box; \x7d\n        body \x7b\n            font-family: \x27Segoe UI\x27, Tahoma, Geneva, Verdana, sans-serif;\n            background: linear-gradient(135deg, " ++
  color_scheme.primary ++
  " 0%, " ++
  color_scheme.secondary ++
  " 100%);\n            min-height: 100vh;\n            padding: 2rem;\n        \x7d\n        .container \x7b max-width: 1200px; margin: 0 auto; \x7d\n        header \x7b\n            background: white;\n            padding: 3rem;\n            border-radius: 20px;\n            box-shadow: 0 20px 60px rgba(0,0,0,0.2);\n            margin-bottom: 2rem;\n            text-align: center;\n        \x7d\n        h1 \x7b \n            font-size: 3rem; \n            background: linear-gradient(135deg, " ++
  color_scheme.primary ++
  ", " ++
  color_scheme.accent ++
  ");\n            -webkit-background-clip: text;\n            -webkit-text-fill-color: transparent;\n            background-clip: text;\n            margin-bottom: 1rem;\n        \x7d\n        .meta \x7b color: #666; font-size: 1.1rem; \x7d\n        .grid \x7b\n            display: grid;\n            grid-template-columns: repeat(auto-fit, minmax(350px, 1fr));\n            gap: 2rem;\n            margin-top: 2rem;\n        \x7d\n        .card \x7b\n            background: white;\n            border-radius: 15px;\n            padding: 2rem;\n            box-shadow: 0 10px 30px rgba(0,0,0,0.1);\n            transition: transform 0.3s;\n        \x7d\n        .card:hover \x7b transform: translateY(-10px); \x7d\n        .card h2 \x7b\n            color: " ++
  color_scheme.primary ++
  ";\n            margin-bottom: 1rem;\n            font-size: 1.8rem;\n        \x7d\n        .card p \x7b line-height: 1.8; color: #444; \x7d\n        footer \x7b\n            text-align: center;\n            margin-top: 3rem;\n            color: white;\n            padding: 2rem;\n            background: rgba(255,255,255,0.1);\n            border-radius: 15px;\n        \x7d\n    </style>\n</head>\n<body>\n    <div class=\"container\">\n        <header>\n            <h1>" ++
  title ++
  "</h1>\n            <p class=\"meta\">" ++
  meta_description ++
  "</p>\n        </header>\n        \n        <div class=\"grid\">\n            " ++
  (renderSectionsWith (fun _i s => "\n            <div class=\"card\">\n                <h2>" ++ s.heading ++ "</h2>\n                <p>" ++ s.content ++ "</p>\n            </div>\n            ") 0 sections) ++
  "\n        </div>\n        \n        <footer>\n            <p>Generated: " ++
  timestamp ++
  " | ID: " ++
  site_id ++
  "</p>\n        </footer>\n    </div>\n</body>\n</html>"

/-- Faithful transcription of the Jinja template produced by
`_get_minimal_template` in src/app/generator.py: the HTML text is kept
verbatim as literal chunks around the substitution points, and each
Jinja for-loop over `sections` becomes `renderSectionsWith`. -/
def render_minimal (site_id title meta_description : String) (sections : List SectionData) (color_scheme : ColorScheme) (timestamp : String) : String :=
  "<!DOCTYPE html>\n<html lang=\"en\">\n<head>\n    <meta charset=\"UTF-8\">\n    <meta name=\"viewport\" content=\"width=device-width, initial-scale=1.0\">\n    <meta name=\"description\" content=\"" ++
  meta_description ++
  "\">\n    <title>" ++
  title ++
  "</title>\n    <style>\n        * \x7b margin: 0; padding: 0; box-sizing: border-box; \x7d\n        body \x7b\n            font-family: \x27Arial\x27, sans-serif;\n            display: flex;\n            min-height: 100vh;\n            background: #f5f5f5;\n        \x7d\n        aside \x7b\n            width: 280px;\n            background: " ++
  color_scheme.primary ++
  ";\n            color: white;\n            padding: 2rem;\n            position: fixed;\n            height: 100vh;\n            overflow-y: auto;\n        \x7d\n        aside h1 \x7b font-size: 1.8rem; margin-bottom: 2rem; \x7d\n        aside nav a \x7b\n            display: block;\n            color: white;\n            text-decoration: none;\n            padding: 0.8rem;\n            margin: 0.5rem 0;\n            border-radius: 5px;\n            transition: background 0.2s;\n        \x7d\n        aside nav a:hover \x7b background: rgba(255,255,255,0.2); \x7d\n        main \x7b\n            margin-left: 280px;\n            padding: 3rem;\n            flex: 1;\n        \x7d\n        section \x7b\n            background: white;\n            padding: 2.5rem;\n            margin-bottom: 2rem;\n            border-left: 5px solid " ++
  color_scheme.accent ++
  ";\n            box-shadow: 0 2px 10px rgba(0,0,0,0.05);\n        \x7d\n        h2 \x7b \n            color: " ++
  color_scheme.primary ++
  "; \n            margin-bottom: 1.5rem;\n            font-size: 2rem;\n        \x7d\n        p \x7b line-height: 1.9; color: #333; \x7d\n        @media (max-width: 768px) \x7b\n            aside \x7b position: relative; width: 100%; height: auto; \x7d\n            main \x7b margin-left: 0; \x7d\n        \x7d\n    </style>\n</head>\n<body>\n    <aside>\n        <h1>" ++
  title ++
  "</h1>\n        <p style=\"opacity: 0.9; margin-bottom: 2rem;\">" ++
  meta_description ++
  "</p>\n        <nav>\n            " ++
  (renderSectionsWith (fun i s => "\n            <a href=\"#section-" ++ Nat.repr (i + 1) ++ "\">" ++ s.heading ++ "</a>\n            ") 0 sections) ++
  "\n        </nav>\n    </aside>\n    \n    <main>\n        " ++
  (renderSectionsWith (fun i s => "\n        <section id=\"section-" ++ Nat.repr (i + 1) ++ "\">\n            <h2>" ++ s.heading ++ "</h2>\n            <p>" ++ s.content ++ "</p>\n        </section>\n        ") 0 sections) ++
  "\n        \n        <footer style=\"text-align: center; padding: 2rem; color: #666;\">\n            Generated: " ++
  timestamp ++
  " | ID: " ++
  site_id ++
  "\n        </footer>\n    </main>\n</body>\n</html>"

/-- Faithful transcription of the Jinja template produced by
`_get_classic_template` in src/app/generator.py: the HTML text is kept
verbatim as literal chunks around the substitution points, and each
Jinja for-loop over `sections` becomes `renderSectionsWith`. -/
def render_classic (site_id title meta_description : String) (sections : List SectionData) (color_scheme : ColorScheme) (timestamp : String) : String :=
  "<!DOCTYPE html>\n<html lang=\"en\">\n<head>\n    <meta charset=\"UTF-8\">\n    <meta name=\"viewport\" content=\"width=device-width, initial-scale=1.0\">\n    <meta name=\"description\" content=\"" ++
  meta_description ++
  "\">\n    <title>" ++
  title ++
  "</title>\n    <style>\n        * \x7b margin: 0; padding: 0; box-sizing: border-box; \x7d\n        body \x7b\n            font-family: Georgia, \x27Times New Roman\x27, serif;\n            background: #fafafa;\n            line-height: 1.8;\n        \x7d\n        .container \x7b\n            max-width: 900px;\n            margin: 0 auto;\n            background: white;\n            box-shadow: 0 0 40px rgba(0,0,0,0.1);\n        \x7d\n        header \x7b\n            border-top: 8px solid " ++
  color_scheme.primary ++
  ";\n            border-bottom: 3px double " ++
  color_scheme.primary ++
  ";\n            padding: 3rem 2rem;\n            text-align: center;\n            background: " ++
  color_scheme.secondary ++
  ";\n            color: white;\n        \x7d\n        h1 \x7b\n            font-size: 2.8rem;\n            font-weight: 700;\n            letter-spacing: -1px;\n            margin-bottom: 1rem;\n        \x7d\n        .meta \x7b\n            font-style: italic;\n            font-size: 1.1rem;\n            opacity: 0.95;\n        \x7d\n        article \x7b\n            padding: 3rem 4rem;\n        \x7d\n        section \x7b\n            break-inside: avoid;\n            margin-bottom: 3rem;\n        \x7d\n        h2 \x7b\n            font-size: 1.9rem;\n            color: " ++
  color_scheme.primary ++
  ";\n            margin-bottom: 1rem;\n            padding-bottom: 0.5rem;\n            border-bottom: 2px solid " ++
  color_scheme.accent ++
  ";\n        \x7d\n        p \x7b \n            text-align: justify;\n            margin-bottom: 1.2rem;\n            color: #222;\n        \x7d\n        footer \x7b\n            border-top: 3px double " ++
  color_scheme.primary ++
  ";\n            padding: 2rem;\n            text-align: center;\n            background: #f9f9f9;\n            font-size: 0.9rem;\n            color: #666;\n        \x7d\n    </style>\n</head>\n<body>\n    <div class=\"container\">\n        <header>\n            <h1>" ++
  title ++
  "</h1>\n            <p class=\"meta\">" ++
  meta_description ++
  "</p>\n        </header>\n        \n        <article>\n            " ++
  (renderSectionsWith (fun _i s => "\n            <section>\n                <h2>" ++ s.heading ++ "</h2>\n                <p>" ++ s.content ++ "</p>\n            </section>\n            ") 0 sections) ++
  "\n        </article>\n        \n        <footer>\n            <p>Published: " ++
  timestamp ++
  "</p>\n            <p>Document ID: " ++
  site_id ++
  "</p>\n        </footer>\n    </div>\n</body>\n</html>"

/-- Faithful transcription of the Jinja template produced by
`_get_magazine_template` in src/app/generator.py: the HTML text is kept
verbatim as literal chunks around the substitution points, and each
Jinja for-loop over `sections` becomes `renderSectionsWith`. -/
def render_magazine (site_id title meta_description : String) (sections : List SectionData) (color_scheme : ColorScheme) (timestamp : String) : String :=
  "<!DOCTYPE html>\n<html lang=\"en\">\n<head>\n    <meta charset=\"UTF-8\">\n    <meta name=\"viewport\" content=\"width=device-width, initial-scale=1.0\">\n    <meta name=\"description\" content=\"" ++
  meta_description ++
  "\">\n    <title>" ++
  title ++
  "</title>\n    <style>\n        * \x7b margin: 0; padding: 0; box-sizing: border-box; \x7d\n        body \x7b\n            font-family: \x27Helvetica Neue\x27, Arial, sans-serif;\n            background: white;\n        \x7d\n        .hero \x7b\n            height: 70vh;\n            background: linear-gradient(135deg, " ++
  color_scheme.primary ++
  ", " ++
  color_scheme.secondary ++
  ");\n            display: flex;\n            align-items: center;\n            justify-content: center;\n            text-align: center;\n            color: white;\n            padding: 2rem;\n            position: relative;\n            overflow: hidden;\n        \x7d\n        .hero::before \x7b\n            content: \x27\x27;\n            position: absolute;\n            width: 150%;\n            height: 150%;\n            background: radial-gradient(circle, rgba(255,255,255,0.1) 1px, transparent 1px);\n            background-size: 50px 50px;\n            animation: moveGrid 20s linear infinite;\n        \x7d\n        @keyframes moveGrid \x7b\n            0% \x7b transform: translate(0, 0); \x7d\n            100% \x7b transform: translate(50px, 50px); \x7d\n        \x7d\n        .hero-content \x7b\n            position: relative;\n            z-index: 1;\n            max-width: 800px;\n        \x7d\n        h1 \x7b\n            font-size: 4rem;\n            font-weight: 900;\n            margin-bottom: 1.5rem;\n            text-shadow: 2px 2px 4px rgba(0,0,0,0.3);\n        \x7d\n        .meta \x7b\n            font-size: 1.3rem;\n            line-height: 1.6;\n            opacity: 0.95;\n        \x7d\n        .content \x7b\n            max-width: 1100px;\n            margin: 0 auto;\n            padding: 4rem 2rem;\n        \x7d\n        section \x7b\n            margin-bottom: 4rem;\n            display: flex;\n            gap: 3rem;\n            align-items: flex-start;\n        \x7d\n        section:nth-child(even) \x7b flex-direction: row-reverse; \x7d\n        .section-number \x7b\n            font-size: 5rem;\n            font-weight: 900;\n            color: " ++
  color_scheme.accent ++
  ";\n            opacity: 0.3;\n            min-width: 100px;\n        \x7d\n        .section-content \x7b flex: 1; \x7d\n        h2 \x7b\n            font-size: 2.2rem;\n            color: " ++
  color_scheme.primary ++
  ";\n            margin-bottom: 1.5rem;\n        \x7d\n        p \x7b\n            line-height: 1.9;\n            color: #333;\n            font-size: 1.05rem;\n        \x7d\n        footer \x7b\n            background: #111;\n            color: white;\n            text-align: center;\n            padding: 3rem 2rem;\n        \x7d\n        @media (max-width: 768px) \x7b\n            h1 \x7b font-size: 2.5rem; \x7d\n            section \x7b flex-direction: column !important; \x7d\n            .section-number \x7b font-size: 3rem; \x7d\n        \x7d\n    </style>\n</head>\n<body>\n    <div class=\"hero\">\n        <div class=\"hero-content\">\n            <h1>" ++
  title ++
  "</h1>\n            <p class=\"meta\">" ++
  meta_description ++
  "</p>\n        </div>\n    </div>\n    \n    <div class=\"content\">\n        " ++
  (renderSectionsWith (fun i s => "\n        <section>\n            <div class=\"section-number\">" ++ Nat.repr (i + 1) ++ "</div>\n            <div class=\"section-content\">\n                <h2>" ++ s.heading ++ "</h2>\n                <p>" ++ s.content ++ "</p>\n            </div>\n        </section>\n        ") 0 sections) ++
  "\n    </div>\n    \n    <footer>\n        <p style=\"margin-bottom: 0.5rem;\">AI Generated Content</p>\n        <p>" ++
  timestamp ++
  " | " ++
  site_id ++
  "</p>\n    </footer>\n</body>\n</html>"

/-- `_render_html` (src/app/generator.py): `jinja_env.get_template` resolves
`site_<template_name>.html` among the four templates provisioned by
`_ensure_templates`; any other name raises, modelled as `none`. -/
def render_html (site_id title meta_description : String)
    (sections : List SectionData) (color_scheme : ColorScheme)
    (template_name : String) (timestamp : String) : Option String :=
  if template_name = "modern" then
    some (render_modern site_id title meta_description sections color_scheme timestamp)
  else if template_name = "minimal" then
    some (render_minimal site_id title meta_description sections color_scheme timestamp)
  else if template_name = "classic" then
    some (render_classic site_id title meta_description sections color_scheme timestamp)
  else if template_name = "magazine" then
    some (render_magazine site_id title meta_description sections color_scheme timestamp)
  else none

/-- ASCII whitespace as recognised by Python `str.split()` with no
arguments (space, tab, newline, carriage return, vertical tab, form
feed; the generated HTML only ever contains the first four). -/
def py_isspace (c : Char) : Bool :=
  c == ' ' || c == '\t' || c == '\n' || c == '\r' || c == '\x0b' || c == '\x0c'

/-- Python `str.strip()` with no arguments: removes leading and trailing
whitespace.  Implemented structurally on the character list (rather than
with `String.trim`, whose well-founded recursion the kernel cannot
evaluate); both agree on the ASCII data this program handles. -/
def py_strip (s : String) : String :=
  ⟨((s.data.dropWhile py_isspace).reverse.dropWhile py_isspace).reverse⟩

/-- `len(s.split())` in Python: the number of maximal runs of
non-whitespace characters of `s`. -/
def word_count (s : String) : ℕ :=
  (s.data.foldl
    (fun st c =>
      if py_isspace c then (st.1, false)
      else if st.2 then st else (st.1 + 1, true))
    ((0 : ℕ), false)).1

/-- `_generate_content` (src/app/generator.py): the model response to the
prompt is the oracle `result`; `none` models a raised exception, which the
source catches and converts into the fixed string "Generated content"; a
successful response is returned `.strip()`-ped. -/
def generate_content (result : Option String) (_prompt : String) : String :=
  match result with
  | some r => py_strip r
  | none => "Generated content"

/-- `_generate_sections` (src/app/generator.py): one model call per section
prompt, in order; `results k` is the outcome of the `k`-th call (`none` a
raised exception, caught and replaced by the fixed in-progress string). -/
def generate_sections (results : ℕ → Option String) :
    List SectionPrompt → List SectionData
  | [] => []
  | p :: ps =>
    (match results 0 with
     | some r => { heading := p.heading, content := py_strip r }
     | none => { heading := p.heading, content := "Content generation in progress..." })
      :: generate_sections (fun k => results (k + 1)) ps

/-- The per-site random draws and model-call outcomes consumed by
`_generate_single` (src/app/generator.py): the generated uuid, the
`random.choice` indices for the title and meta prompt templates, the
`random.randint(3, 5)` section count, the `random.sample` selection
(distinct catalog indices in sampling order), the model response to the
title, meta and each section call, the colour choice, and the two
`datetime.now()` readings (render footer and record timestamp). -/
structure SingleEnv where
  siteId : String
  titleChoice : Fin 5
  metaChoice : Fin 4
  numSections : ℕ
  sectionSel : List (Fin 10)
  titleResult : Option String
  metaResult : Option String
  sectionResults : ℕ → Option String
  colorChoice : Fin 12
  renderTime : String
  recordTime : String

/-- Constraints that the random draws of one site satisfy by the contract
of the library calls that produced them: `random.randint(3,5)` is between
3 and 5, and `random.sample` returns distinct elements, as many as
`min(num_sections, len(catalog))` with the catalogs of length 10. -/
def validSingleEnv (e : SingleEnv) : Prop :=
  3 ≤ e.numSections ∧ e.numSections ≤ 5 ∧ e.sectionSel.Nodup ∧
    e.sectionSel.length = min e.numSections 10

/-- `_generate_single` (src/app/generator.py), returning the produced
record together with the HTML text written to `file_path`.  `none` models
the only way the body can raise: an unknown template name in
`_render_html`.  `tokens_used = int(len(html.split()) * 1.3)` is the exact
floor `13 * word_count / 10` (the float computation yields the same floor:
`float(1.3)` exceeds 13/10 by less than `2 ^ -52`, so the product never
crosses an integer downwards, and the fractional part of `13 n / 10` is
either 0 or at least 1/10). -/
def generate_single (env : SingleEnv) (topic style : String)
    (max_tokens : ℕ) (index : ℕ) (template_style : String) :
    Option (SiteRecord × String) :=
  let site_id := env.siteId
  let title_prompt := get_title_prompt env.titleChoice topic style index
  let meta_prompt := get_meta_prompt env.metaChoice topic style
  let section_prompts := get_section_prompts topic style max_tokens env.sectionSel
  let title := generate_content env.titleResult title_prompt
  let meta_description := generate_content env.metaResult meta_prompt
  let sections := generate_sections env.sectionResults section_prompts
  let color_scheme := get_random_colors env.colorChoice
  match render_html site_id title meta_description sections color_scheme
      template_style env.renderTime with
  | none => none
  | some html =>
    let file_path := "sites/site_" ++ site_id ++ ".html"
    let tokens_used := 13 * word_count html / 10
    some
      ({ site_id := site_id
         title := title
         meta_description := meta_description
         file_path := file_path
         sections_count := sections.length
         tokens_used := tokens_used
         template_style := template_style
         timestamp := env.recordTime }, html)

/-- The mutable state of the `ChatOpenAI` client `self.llm`
(src/app/generator.py): `generate_multiple` reassigns `temperature` and
`top_p` on every iteration. -/
structure LLMState where
  model : String
  temperature : ℚ
  top_p : ℚ
deriving DecidableEq, Repr

/-- The fields of the `WebsiteGenerator` object that either hold data or
are mutated: the credential and the model client.  The prompt manager,
memory, and template environment are initialised once and never written
afterwards. -/
structure GeneratorState where
  api_key : String
  llm : LLMState
deriving DecidableEq, Repr

/-- The random draws of a whole batch, indexed by site position `i`:
`random.uniform(0.8, 1.0)`, `random.uniform(0.85, 0.98)`, the
`random.choice` over the four template styles, and the per-site draws. -/
structure BatchEnv where
  temp : ℕ → ℚ
  topP : ℕ → ℚ
  templateChoice : ℕ → Fin 4
  site : ℕ → SingleEnv

/-- Ranges guaranteed by the `random.uniform` calls of `generate_multiple`
(src/app/generator.py) plus per-site validity. -/
def validBatchEnv (env : BatchEnv) : Prop :=
  ∀ i, (4/5 ≤ env.temp i ∧ env.temp i ≤ 1) ∧
    (17/20 ≤ env.topP i ∧ env.topP i ≤ 49/50) ∧ validSingleEnv (env.site i)

/-- The `template_styles` list of `generate_multiple` (src/app/generator.py). -/
def template_styles : List String := ["modern", "minimal", "classic", "magazine"]

/-- The style `random.choice(template_styles)` picks for site `i`. -/
def template_style_at (env : BatchEnv) (i : ℕ) : String :=
  template_styles.getD (env.templateChoice i).val ""

/-- The loop body of `generate_multiple` (src/app/generator.py): iteration
`i` first writes the two freshly drawn sampling parameters into
`self.llm`, then runs `_generate_single` and appends its record.  The
counter `i` is the current 0-based index, `k` the number of iterations
left; a `none` from `_generate_single` (impossible for the styles chosen
from `template_styles`) propagates like the exception it models. -/
def generate_multiple_go (env : BatchEnv) (topic style : String)
    (max_tokens : ℕ) : ℕ → ℕ → GeneratorState →
    Option (List SiteRecord) × GeneratorState
  | _, 0, g => (some [], g)
  | i, k + 1, g =>
    let g1 : GeneratorState :=
      { g with llm := { g.llm with temperature := env.temp i, top_p := env.topP i } }
    match generate_single (env.site i) topic style max_tokens i
        (template_style_at env i) with
    | none => (none, g1)
    | some (r, _html) =>
      match generate_multiple_go env topic style max_tokens (i + 1) k g1 with
      | (none, g2) => (none, g2)
      | (some rest, g2) => (some (r :: rest), g2)

/-- `generate_multiple` (src/app/generator.py): `count` iterations of the
loop body starting at index 0 on the generator state `g`; returns the
ordered list of site records and the state of the generator after the
call. -/
def generate_multiple (env : BatchEnv) (g : GeneratorState) (topic : String)
    (count : ℕ) (style : String) (max_tokens : ℕ) :
    Option (List SiteRecord) × GeneratorState :=
  generate_multiple_go env topic style max_tokens 0 count g

/-- Python `a or b` on optional strings: `a` unless it is `None` or empty
(falsy), in which case `b`. -/
def py_or_str (a b : Option String) : Option String :=
  match a with
  | some s => if s = "" then b else some s
  | none => b

/-- `WebsiteGenerator.__init__` (src/app/generator.py):
`self.api_key = api_key or os.getenv("OPENAI_API_KEY")`, and a falsy
result raises `ValueError` before anything else happens, so no generation
can be attempted; otherwise the client starts with temperature 0.9 and
top_p 0.95. -/
def website_generator_init (api_key env_key : Option String) :
    Except String GeneratorState :=
  match py_or_str api_key env_key with
  | none => Except.error "OPENAI_API_KEY environment variable not set"
  | some k =>
    if k = "" then Except.error "OPENAI_API_KEY environment variable not set"
    else Except.ok
      { api_key := k
        llm := { model := "gpt-3.5-turbo", temperature := 9/10, top_p := 19/20 } }

/-- The path `f"sites/site_{site_id}.html"` used both by
`_generate_single` (src/app/generator.py) for the write and by `get_site`
(src/main.py) for the read. -/
def site_file_path (site_id : String) : String :=
  "sites/site_" ++ site_id ++ ".html"

/-- The `/site/{site_id}` endpoint `get_site` (src/main.py): the
filesystem is an oracle from paths to file contents; a missing file is
the 404 not-found response, an existing one is served. -/
def get_site (fs : String → Option String) (site_id : String) :
    Except ℕ String :=
  match fs (site_file_path site_id) with
  | some content => Except.ok content
  | none => Except.error 404

/-- Splitting a path string at every `/`, structurally on the character
list so the kernel can evaluate it. -/
def split_slash_aux : List Char → List Char → List String
  | [], acc => [⟨acc.reverse⟩]
  | c :: cs, acc =>
    if c = '/' then ⟨acc.reverse⟩ :: split_slash_aux cs []
    else split_slash_aux cs (c :: acc)

/-- The segments of a slash-separated path. -/
def split_slash (s : String) : List String := split_slash_aux s.data []

/-- Lexical resolution of `.` and `..` segments of a slash-separated
path, the normalisation the operating system applies to the path string;
used to state where a crafted `site_id` makes `site_file_path` point. -/
def resolve_lexical (p : String) : List String :=
  (split_slash p).foldl
    (fun acc seg =>
      if seg = ".." then acc.dropLast
      else if seg = "." ∨ seg = "" then acc
      else acc ++ [seg]) []

/-- The patterns `ps` occur, in order and without overlap, inside the
character list `l`: used to state that the rendered page shows the
section headings in display order. -/
def containsInOrder : List Char → List String → Prop
  | _, [] => True
  | l, p :: ps => ∃ u v, l = u ++ p.data ++ v ∧ containsInOrder v ps

/-- Junk `SiteRecord` used as the default of positional `getD` lookups in
statements; every lookup it appears in is guarded by an index bound. -/
def default_record : SiteRecord :=
  { site_id := "", title := "", meta_description := "", file_path := ""
    sections_count := 0, tokens_used := 0, template_style := "", timestamp := "" }

/-- A concrete per-site environment for witnesses and counterexamples:
every model call fails except the first section call, whose padding
content fixes the word count of the rendered page. -/
def c4env : SingleEnv :=
  { siteId := "00000000-0000-4000-8000-000000000000"
    titleChoice := 0
    metaChoice := 0
    numSections := 3
    sectionSel := [0, 1, 2]
    titleResult := none
    metaResult := none
    sectionResults := fun k =>
      if k = 0 then some "alpha beta gamma delta epsilon zeta eta theta" else none
    colorChoice := 0
    renderTime := "2024-01-01 00:00:00"
    recordTime := "2024-01-01T00:00:00" }

/-- A concrete batch environment (constant per-site draws, all inside the
ranges `random.uniform` guarantees) for witnesses and counterexamples. -/
def cbatch : BatchEnv :=
  { temp := fun _ => 17/20
    topP := fun _ => 9/10
    templateChoice := fun _ => 0
    site := fun _ => c4env }

/-- The generator state right after `WebsiteGenerator.__init__`
(src/app/generator.py): temperature 0.9 and top_p 0.95. -/
def g0 : GeneratorState :=
  { api_key := "k"
    llm := { model := "gpt-3.5-turbo", temperature := 9/10, top_p := 19/20 } }

set_option maxRecDepth 100000

/-- A pattern that occurs inside `t` occurs inside `s ++ t`. -/
theorem inf_append_left (s : List Char) {x t : List Char} (h : x <:+: t) :
    x <:+: s ++ t := by
  obtain ⟨u, v, rfl⟩ := h
  exact ⟨s ++ u, v, by simp⟩

/-- A pattern that occurs inside `s` occurs inside `s ++ t`. -/
theorem inf_append_right (t : List Char) {x s : List Char} (h : x <:+: s) :
    x <:+: s ++ t := by
  obtain ⟨u, v, rfl⟩ := h
  exact ⟨u, v ++ t, by simp⟩

/-- Ordered occurrence is stable under prepending text. -/
theorem containsInOrder_append_left (s : List Char) {l : List Char}
    {ps : List String} (h : containsInOrder l ps) :
    containsInOrder (s ++ l) ps := by
  cases ps with
  | nil => trivial
  | cons p ps =>
    obtain ⟨u, v, rfl, hv⟩ := h
    exact ⟨s ++ u, v, by simp, hv⟩

/-- Ordered occurrence is stable under appending text. -/
theorem containsInOrder_append_right (t : List Char) {l : List Char}
    {ps : List String} (h : containsInOrder l ps) :
    containsInOrder (l ++ t) ps := by
  induction ps generalizing l with
  | nil => trivial
  | cons p ps ih =>
    obtain ⟨u, v, rfl, hv⟩ := h
    exact ⟨u, v ++ t, by simp, ih hv⟩

/-- If every rendered section block shows its heading, the concatenated
blocks show all headings in display order. -/
theorem containsInOrder_renderSections (f : ℕ → SectionData → String)
    (hf : ∀ i s, ∃ x y : List Char, (f i s).data = x ++ s.heading.data ++ y) :
    ∀ (secs : List SectionData) (i : ℕ),
      containsInOrder (renderSectionsWith f i secs).data
        (secs.map SectionData.heading) := by
  intro secs
  induction secs with
  | nil => intro i; trivial
  | cons s rest ih =>
    intro i
    obtain ⟨x, y, hxy⟩ := hf i s
    refine ⟨x, y ++ (renderSectionsWith f (i + 1) rest).data, ?_,
      containsInOrder_append_left _ (ih (i + 1))⟩
    rw [renderSectionsWith, String.data_append, hxy]
    simp

/-- Decomposition of the section-block shape used by the modern and
classic templates: the heading sits between literal chunks. -/
theorem block_decomp_five (a h b cnt c : String) :
    ∃ x y : List Char, (a ++ h ++ b ++ cnt ++ c).data = x ++ h.data ++ y :=
  ⟨a.data, (b ++ cnt ++ c).data, by simp [List.append_assoc]⟩

/-- Decomposition of the section-block shape used by the minimal and
magazine templates, which also interpolate `loop.index`. -/
theorem block_decomp_seven (a n b h c cnt d : String) :
    ∃ x y : List Char, (a ++ n ++ b ++ h ++ c ++ cnt ++ d).data = x ++ h.data ++ y :=
  ⟨(a ++ n ++ b).data, (c ++ cnt ++ d).data, by simp [List.append_assoc]⟩

/-- Every section catalog has exactly 10 entries. -/
theorem section_types_lookup_length (k : String) :
    (section_types_lookup k).length = 10 := by
  unfold section_types_lookup
  split_ifs <;> rfl

/-- Within each catalog the ten headings are pairwise distinct, so
heading extraction is injective on catalog positions. -/
theorem heading_fun_injective (style : String) :
    Function.Injective (fun ix : Fin 10 =>
      ((section_types_lookup (style_key style)).getD ix.val ⟨"", ""⟩).heading) := by
  by_cases h1 : style = "educational"
  · subst h1; decide
  by_cases h2 : style = "marketing"
  · subst h2; decide
  by_cases h3 : style = "technical"
  · subst h3; decide
  have hk : style_key style = "educational" := by
    simp [style_key, section_types_mem, h1, h2, h3]
  rw [hk]; decide

/-- `getD` through `map` under an index bound. -/
theorem list_getD_map {α β : Type} (f : α → β) (l : List α) (d : β) (e : α)
    (j : ℕ) (hj : j < l.length) : (l.map f).getD j d = f (l.getD j e) := by
  rw [List.getD_eq_getElem _ _ (by simpa using hj), List.getD_eq_getElem _ _ hj]
  exact List.getElem_map f

/-- The template style drawn for any site is one of the four known ones. -/
theorem template_style_at_mem (env : BatchEnv) (i : ℕ) :
    template_style_at env i ∈ template_styles := by
  show template_styles.getD (env.templateChoice i).val "" ∈ template_styles
  rcases h : env.templateChoice i with ⟨v, hv⟩
  interval_cases v <;>
    simp [template_styles, List.getD_cons_zero, List.getD_cons_succ]

/-- For any of the four known template styles, `_generate_single` cannot
fail, and the record it returns is determined field by field by its
inputs. -/
theorem generate_single_eq (env : SingleEnv) (topic style : String)
    (mt idx : ℕ) (ts : String) (hts : ts ∈ template_styles) :
    ∃ html, generate_single env topic style mt idx ts =
      some
        ({ site_id := env.siteId
           title := generate_content env.titleResult
             (get_title_prompt env.titleChoice topic style idx)
           meta_description := generate_content env.metaResult
             (get_meta_prompt env.metaChoice topic style)
           file_path := "sites/site_" ++ env.siteId ++ ".html"
           sections_count := (generate_sections env.sectionResults
             (get_section_prompts topic style mt env.sectionSel)).length
           tokens_used := 13 * word_count html / 10
           template_style := ts
           timestamp := env.recordTime }, html) := by
  simp only [template_styles, List.mem_cons, List.mem_singleton,
    List.not_mem_nil, or_false] at hts
  rcases hts with rfl | rfl | rfl | rfl <;> exact ⟨_, rfl⟩

/-- The loop of `generate_multiple` produces exactly one record per
iteration, in order: after `k` iterations starting at index `i`, the
result is `some` of a list of length `k` whose `j`-th element is the
record `_generate_single` returns for site `i + j`. -/
theorem generate_multiple_go_spec (env : BatchEnv) (topic style : String)
    (mt : ℕ) :
    ∀ (k i : ℕ) (g : GeneratorState),
      ∃ l, (generate_multiple_go env topic style mt i k g).1 = some l ∧
        l.length = k ∧
        ∀ j, j < k →
          ∃ html, generate_single (env.site (i + j)) topic style mt (i + j)
            (template_style_at env (i + j)) =
              some (l.getD j default_record, html) := by
  intro k
  induction k with
  | zero =>
    intro i g
    exact ⟨[], rfl, rfl, fun j hj => absurd hj (by omega)⟩
  | succ k ih =>
    intro i g
    have hs : ∃ r html, generate_single (env.site i) topic style mt i
        (template_style_at env i) = some (r, html) := by
      obtain ⟨h0, hsingle⟩ := generate_single_eq (env.site i) topic style mt i
        (template_style_at env i) (template_style_at_mem env i)
      exact ⟨_, _, hsingle⟩
    obtain ⟨r, h0, hsingle⟩ := hs
    obtain ⟨rest, hrest, hlen, hpt⟩ := ih (i + 1)
      { g with llm := { g.llm with temperature := env.temp i, top_p := env.topP i } }
    rcases hgo : generate_multiple_go env topic style mt (i + 1) k
      { g with llm := { g.llm with temperature := env.temp i, top_p := env.topP i } }
      with ⟨o, g2⟩
    rw [hgo] at hrest
    simp only at hrest
    subst hrest
    refine ⟨r :: rest, ?_, by simp [hlen], ?_⟩
    · show (generate_multiple_go env topic style mt i (k + 1) g).1 = _
      simp only [generate_multiple_go]
      rw [hsingle, hgo]
    · intro j hj
      cases j with
      | zero => simpa using ⟨h0, hsingle⟩
      | succ j =>
        have hj' : j < k := by omega
        have := hpt j hj'
        simpa [Nat.add_assoc, Nat.add_comm 1 j] using this

/-- State evolution of the `generate_multiple` loop: the only generator
fields it writes are `llm.temperature` and `llm.top_p`, which end up
holding the jitter drawn for the last site processed. -/
theorem generate_multiple_go_state (env : BatchEnv) (topic style : String)
    (mt : ℕ) :
    ∀ (k i : ℕ) (g : GeneratorState),
      (generate_multiple_go env topic style mt i k g).2 =
        if k = 0 then g
        else
          { g with llm := { g.llm with temperature := env.temp (i + k - 1), top_p := env.topP (i + k - 1) } } := by
  intro k
  induction k with
  | zero => intro i g; rfl
  | succ k ih =>
    intro i g
    have hs : ∃ r html, generate_single (env.site i) topic style mt i
        (template_style_at env i) = some (r, html) := by
      obtain ⟨h0, hsingle⟩ := generate_single_eq (env.site i) topic style mt i
        (template_style_at env i) (template_style_at_mem env i)
      exact ⟨_, _, hsingle⟩
    obtain ⟨r, h0, hsingle⟩ := hs
    have hrec := ih (i + 1)
      { g with llm := { g.llm with temperature := env.temp i, top_p := env.topP i } }
    rcases hgo : generate_multiple_go env topic style mt (i + 1) k
      { g with llm := { g.llm with temperature := env.temp i, top_p := env.topP i } }
      with ⟨o, g2⟩
    rw [hgo] at hrec
    simp only at hrec
    show (generate_multiple_go env topic style mt i (k + 1) g).2 = _
    simp only [generate_multiple_go]
    rw [hsingle, hgo]
    by_cases hk : k = 0
    · subst hk
      simp only [if_pos rfl] at hrec
      subst hrec
      cases o <;> simp
    · simp only [if_neg hk] at hrec
      subst hrec
      have harith : i + 1 + k - 1 = i + (k + 1) - 1 := by omega
      cases o <;> simp [harith]

/-- The five focus suffixes used for indices 0..4 are pairwise not
suffixes of one another (in particular pairwise distinct). -/
theorem variation_suffix_not_suffix :
    ∀ i j : Fin 5, i ≠ j →
      ¬ ((variation_suffix.getD (i.val % 8) "").data <:+
          (variation_suffix.getD (j.val % 8) "").data) := by decide

/-- C3: model-call failures never propagate: a failed title/meta call
returns exactly "Generated content"; section generation returns one
section per input prompt, in input order, with the input heading
preserved verbatim, the stripped model output as content on success, and
exactly "Content generation in progress..." on failure. -/
theorem claim_C3_model_failures (results : ℕ → Option String)
    (ps : List SectionPrompt) :
    (∀ prompt, generate_content none prompt = "Generated content") ∧
    (generate_sections results ps).length = ps.length ∧
    (∀ j, j < ps.length →
      ((generate_sections results ps).getD j ⟨"", ""⟩).heading =
        (ps.getD j ⟨"", ""⟩).heading ∧
      ((generate_sections results ps).getD j ⟨"", ""⟩).content =
        match results j with
        | some r => py_strip r
        | none => "Content generation in progress...") := by
  refine ⟨fun _ => rfl, ?_, ?_⟩
  · induction ps generalizing results with
    | nil => rfl
    | cons p ps ih =>
      simp only [generate_sections, List.length_cons, ih (fun k => results (k + 1))]
  · induction ps generalizing results with
    | nil => intro j hj; exact absurd hj (by simp)
    | cons p ps ih =>
      intro j hj
      cases j with
      | zero =>
        cases h : results 0 <;> simp [generate_sections, h]
      | succ j =>
        have hj' : j < ps.length := by simpa using hj
        have := ih (fun k => results (k + 1)) j hj'
        cases h : results 0 <;>
          simpa [generate_sections, h] using this

/-- Witness for C3 at a concrete pair of section prompts, with the first
model call succeeding and the second failing. -/
theorem claim_C3_model_failures_witness :
    ((generate_sections (fun k => if k = 0 then some " hi " else none)
        [⟨"A", "p1"⟩, ⟨"B", "p2"⟩]).getD 0 ⟨"", ""⟩).heading =
      (([⟨"A", "p1"⟩, ⟨"B", "p2"⟩] : List SectionPrompt).getD 0 ⟨"", ""⟩).heading ∧
    ((generate_sections (fun k => if k = 0 then some " hi " else none)
        [⟨"A", "p1"⟩, ⟨"B", "p2"⟩]).getD 0 ⟨"", ""⟩).content =
      match (fun k : ℕ => if k = 0 then some " hi " else none) 0 with
      | some r => py_strip r
      | none => "Content generation in progress..." :=
  (claim_C3_model_failures (fun k => if k = 0 then some " hi " else none)
    [⟨"A", "p1"⟩, ⟨"B", "p2"⟩]).2.2 0 (by decide)

/-- C6: construction without any credential (explicit argument or
environment, where Python treats `None` and the empty string as absent)
yields the fatal configuration error, before any generation is possible;
with a credential present it succeeds. -/
theorem claim_C6_init_credential (api_key env_key : Option String) :
    ((api_key.getD "" = "" ∧ env_key.getD "" = "") →
      website_generator_init api_key env_key =
        Except.error "OPENAI_API_KEY environment variable not set") ∧
    ((api_key.getD "" ≠ "" ∨ env_key.getD "" ≠ "") →
      ∃ g, website_generator_init api_key env_key = Except.ok g) := by
  constructor
  · rintro ⟨ha, he⟩
    cases api_key with
    | none =>
      cases env_key with
      | none => rfl
      | some e => simp only [Option.getD_some] at he; subst he; rfl
    | some a =>
      simp only [Option.getD_some] at ha
      subst ha
      cases env_key with
      | none => rfl
      | some e => simp only [Option.getD_some] at he; subst he; rfl
  · intro h
    cases api_key with
    | some a =>
      by_cases ha : a = ""
      · subst ha
        rcases h with h | h
        · simp at h
        · cases env_key with
          | none => simp at h
          | some e =>
            simp only [Option.getD_some] at h
            exact ⟨{ api_key := e, llm := { model := "gpt-3.5-turbo", temperature := 9/10, top_p := 19/20 } },
              by simp [website_generator_init, py_or_str, h]⟩
      · exact ⟨{ api_key := a, llm := { model := "gpt-3.5-turbo", temperature := 9/10, top_p := 19/20 } },
          by simp [website_generator_init, py_or_str, ha]⟩
    | none =>
      rcases h with h | h
      · simp at h
      · cases env_key with
        | none => simp at h
        | some e =>
          simp only [Option.getD_some] at h
          exact ⟨{ api_key := e, llm := { model := "gpt-3.5-turbo", temperature := 9/10, top_p := 19/20 } },
            by simp [website_generator_init, py_or_str, h]⟩

/-- Witness for C6: no credential at all errors out; an environment
credential alone suffices. -/
theorem claim_C6_init_credential_witness :
    website_generator_init none none =
      Except.error "OPENAI_API_KEY environment variable not set" ∧
    ∃ g, website_generator_init none (some "sk-test") = Except.ok g :=
  ⟨(claim_C6_init_credential none none).1 (by decide),
   (claim_C6_init_credential none (some "sk-test")).2 (by decide)⟩

/-- C7: the output path is derived deterministically and injectively from
the site id, the generator's record carries exactly that path, fetch
resolves the same path and returns the written HTML, and a missing id
yields the 404 not-found result instead of an error. -/
theorem claim_C7_path_roundtrip :
    (∀ a b : String, site_file_path a = site_file_path b → a = b) ∧
    (∀ (env : SingleEnv) (topic style : String) (mt idx : ℕ) (ts : String)
        (r : SiteRecord) (html : String),
      generate_single env topic style mt idx ts = some (r, html) →
        r.file_path = site_file_path env.siteId) ∧
    (∀ (fs : String → Option String) (site_id html : String),
      fs (site_file_path site_id) = some html →
        get_site fs site_id = Except.ok html) ∧
    (∀ (fs : String → Option String) (site_id : String),
      fs (site_file_path site_id) = none →
        get_site fs site_id = Except.error 404) := by
  refine ⟨?_, ?_, ?_, ?_⟩
  · intro a b h
    have hd := congrArg String.data h
    simp only [site_file_path, String.data_append] at hd
    exact String.ext (List.append_cancel_left (List.append_cancel_right hd))
  · intro env topic style mt idx ts r html h
    rw [generate_single] at h
    split at h
    · exact absurd h (by simp)
    · simp only [Option.some.injEq, Prod.mk.injEq] at h
      obtain ⟨hr, _⟩ := h
      rw [← hr]
      rfl
  · intro fs site_id html h
    unfold get_site
    rw [h]
  · intro fs site_id h
    unfold get_site
    rw [h]

/-- Witness for C7: a written file is served back verbatim, an absent id
404s, path injectivity and the record's path at concrete inputs. -/
theorem claim_C7_path_roundtrip_witness :
    get_site (fun p => if p = site_file_path "abc" then some "<html>x</html>" else none)
      "abc" = Except.ok "<html>x</html>" ∧
    get_site (fun _ => none) "11111111-1111-4111-8111-111111111111" =
      Except.error 404 ∧
    ((generate_single c4env "AI" "educational" 800 0 "modern").getD
      (default_record, "")).1.file_path = site_file_path c4env.siteId :=
  ⟨claim_C7_path_roundtrip.2.2.1 _ "abc" "<html>x</html>" (by simp),
   claim_C7_path_roundtrip.2.2.2 _ _ rfl,
   claim_C7_path_roundtrip.2.1 c4env "AI" "educational" 800 0 "modern" _ _ rfl⟩

/-- C10: site retrieval does no validation of `site_id`: for every string
it reads exactly `sites/site_<site_id>.html` and serves that file when it
exists; the path always carries the `.html` suffix, and a traversal id
such as "/../../secret" makes the path resolve outside the sites
directory. -/
theorem claim_C10_get_site_no_validation :
    (∀ (fs : String → Option String) (site_id content : String),
      fs (site_file_path site_id) = some content →
        get_site fs site_id = Except.ok content) ∧
    (∀ site_id : String,
      site_file_path site_id = "sites/site_" ++ site_id ++ ".html") ∧
    (∀ site_id : String, ".html".data <:+ (site_file_path site_id).data) ∧
    resolve_lexical (site_file_path "/../../secret") = ["secret.html"] := by
  refine ⟨?_, fun _ => rfl, ?_, by rfl⟩
  · intro fs site_id content h
    unfold get_site
    rw [h]
  · intro site_id
    show ".html".data <:+ ("sites/site_" ++ site_id ++ ".html").data
    simp only [String.data_append]
    exact List.suffix_append _ _

/-- Witness for C10: a file lexically outside the sites directory is
served for a traversal id. -/
theorem claim_C10_get_site_no_validation_witness :
    get_site
      (fun p => if p = site_file_path "/../../secret" then some "SECRET" else none)
      "/../../secret" = Except.ok "SECRET" :=
  claim_C10_get_site_no_validation.1 _ "/../../secret" "SECRET" (by simp)

/-- C8: for any per-call choices of the random base template, the five
title prompts for indices 0..4 are pairwise distinct, because the focus
suffix is selected by `index % 8` and the five suffixes involved are
pairwise distinct (none a suffix of another). -/
theorem claim_C8_title_prompts_distinct (topic style : String)
    (c : Fin 5 → Fin 5) (i j : Fin 5) (hij : i ≠ j) :
    get_title_prompt (c i) topic style i.val ≠
      get_title_prompt (c j) topic style j.val := by
  intro h
  have hd := congrArg String.data h
  simp only [get_title_prompt, String.data_append] at hd
  rcases List.append_eq_append_iff.mp hd with ⟨a', _, ha2⟩ | ⟨c', _, hc2⟩
  · exact variation_suffix_not_suffix j i (Ne.symm hij) ⟨a', ha2.symm⟩
  · exact variation_suffix_not_suffix i j hij ⟨c', hc2.symm⟩

/-- Witness for C8 at concrete topic, style, base choices and indices. -/
theorem claim_C8_title_prompts_distinct_witness :
    get_title_prompt 2 "AI" "technical" 0 ≠ get_title_prompt 2 "AI" "technical" 1 :=
  claim_C8_title_prompts_distinct "AI" "technical" (fun _ => 2) 0 1 (by decide)

/-- C2: for every topic, style and max_tokens, `get_section_prompts`
returns between 3 and 5 entries (the sampled count), pairwise-distinct
headings drawn from the catalog selected by `style_key` — the style's own
catalog for the three recognised styles, the educational one otherwise —
and the entries appear in sampling order. -/
theorem claim_C2_section_prompts (topic style : String) (mt n : ℕ)
    (sel : List (Fin 10)) (h3 : 3 ≤ n) (h5 : n ≤ 5) (hnd : sel.Nodup)
    (hlen : sel.length = min n 10) :
    (3 ≤ (get_section_prompts topic style mt sel).length ∧
      (get_section_prompts topic style mt sel).length ≤ 5) ∧
    ((get_section_prompts topic style mt sel).map SectionPrompt.heading).Nodup ∧
    (∀ p ∈ get_section_prompts topic style mt sel,
      p.heading ∈ (section_types_lookup (style_key style)).map SectionEntry.heading) ∧
    ((style = "educational" ∨ style = "marketing" ∨ style = "technical") →
      style_key style = style) ∧
    (¬(style = "educational" ∨ style = "marketing" ∨ style = "technical") →
      style_key style = "educational") ∧
    (∀ j, j < sel.length →
      ((get_section_prompts topic style mt sel).getD j ⟨"", ""⟩).heading =
        ((section_types_lookup (style_key style)).getD (sel.getD j 0).val
          ⟨"", ""⟩).heading) := by
  have hlen' : (get_section_prompts topic style mt sel).length = sel.length := by
    simp [get_section_prompts]
  have hmap : (get_section_prompts topic style mt sel).map SectionPrompt.heading =
      sel.map (fun ix =>
        ((section_types_lookup (style_key style)).getD ix.val ⟨"", ""⟩).heading) := by
    simp [get_section_prompts, List.map_map]
  refine ⟨⟨?_, ?_⟩, ?_, ?_, ?_, ?_, ?_⟩
  · omega
  · omega
  · rw [hmap]
    exact hnd.map (heading_fun_injective style)
  · intro p hp
    simp only [get_section_prompts, List.mem_map] at hp
    obtain ⟨ix, _, rfl⟩ := hp
    have hix : ix.val < (section_types_lookup (style_key style)).length := by
      rw [section_types_lookup_length]
      exact ix.isLt
    rw [List.getD_eq_getElem _ _ hix]
    exact List.mem_map_of_mem _ (List.getElem_mem hix)
  · rintro (rfl | rfl | rfl) <;> rfl
  · intro h
    push_neg at h
    obtain ⟨h1, h2, h3⟩ := h
    simp [style_key, section_types_mem, h1, h2, h3]
  · intro j hj
    simp only [get_section_prompts]
    rw [list_getD_map _ _ _ 0 j hj]

/-- Witness for C2 at a concrete draw of four distinct catalog indices. -/
theorem claim_C2_section_prompts_witness :
    (3 ≤ (get_section_prompts "AI" "technical" 800 [0, 2, 5, 7]).length ∧
      (get_section_prompts "AI" "technical" 800 [0, 2, 5, 7]).length ≤ 5) ∧
    ((get_section_prompts "AI" "technical" 800 [0, 2, 5, 7]).map
      SectionPrompt.heading).Nodup :=
  ⟨(claim_C2_section_prompts "AI" "technical" 800 4 [0, 2, 5, 7]
      (by decide) (by decide) (by decide) (by decide)).1,
   (claim_C2_section_prompts "AI" "technical" 800 4 [0, 2, 5, 7]
      (by decide) (by decide) (by decide) (by decide)).2.1⟩

/-- C9: for every well-formed record and each of the four template
styles, rendering succeeds and the HTML contains the literal title, the
literal meta description, and every section heading, with the sections
in the given order. -/
theorem claim_C9_render_contains (site_id title meta_description : String)
    (sections : List SectionData) (color_scheme : ColorScheme)
    (timestamp tstyle : String) (_hne : sections ≠ [])
    (hts : tstyle ∈ template_styles) :
    ∃ html, render_html site_id title meta_description sections color_scheme
        tstyle timestamp = some html ∧
      title.data <:+: html.data ∧
      meta_description.data <:+: html.data ∧
      containsInOrder html.data (sections.map SectionData.heading) := by
  simp only [template_styles, List.mem_cons, List.mem_singleton,
    List.not_mem_nil, or_false] at hts
  rcases hts with rfl | rfl | rfl | rfl
  · refine ⟨_, rfl, ?_, ?_, ?_⟩
    · simp only [render_modern, String.data_append, List.append_assoc]
      repeat first
        | exact inf_append_right _ (List.infix_refl _)
        | apply inf_append_left
    · simp only [render_modern, String.data_append, List.append_assoc]
      repeat first
        | exact inf_append_right _ (List.infix_refl _)
        | apply inf_append_left
    · simp only [render_modern, String.data_append]
      iterate 5 apply containsInOrder_append_right
      apply containsInOrder_append_left
      apply containsInOrder_renderSections
      intro i s
      exact block_decomp_five _ _ _ _ _
  · refine ⟨_, rfl, ?_, ?_, ?_⟩
    · simp only [render_minimal, String.data_append, List.append_assoc]
      repeat first
        | exact inf_append_right _ (List.infix_refl _)
        | apply inf_append_left
    · simp only [render_minimal, String.data_append, List.append_assoc]
      repeat first
        | exact inf_append_right _ (List.infix_refl _)
        | apply inf_append_left
    · simp only [render_minimal, String.data_append]
      iterate 5 apply containsInOrder_append_right
      apply containsInOrder_append_left
      apply containsInOrder_renderSections
      intro i s
      exact block_decomp_seven _ _ _ _ _ _ _
  · refine ⟨_, rfl, ?_, ?_, ?_⟩
    · simp only [render_classic, String.data_append, List.append_assoc]
      repeat first
        | exact inf_append_right _ (List.infix_refl _)
        | apply inf_append_left
    · simp only [render_classic, String.data_append, List.append_assoc]
      repeat first
        | exact inf_append_right _ (List.infix_refl _)
        | apply inf_append_left
    · simp only [render_classic, String.data_append]
      iterate 5 apply containsInOrder_append_right
      apply containsInOrder_append_left
      apply containsInOrder_renderSections
      intro i s
      exact block_decomp_five _ _ _ _ _
  · refine ⟨_, rfl, ?_, ?_, ?_⟩
    · simp only [render_magazine, String.data_append, List.append_assoc]
      repeat first
        | exact inf_append_right _ (List.infix_refl _)
        | apply inf_append_left
    · simp only [render_magazine, String.data_append, List.append_assoc]
      repeat first
        | exact inf_append_right _ (List.infix_refl _)
        | apply inf_append_left
    · simp only [render_magazine, String.data_append]
      iterate 5 apply containsInOrder_append_right
      apply containsInOrder_append_left
      apply containsInOrder_renderSections
      intro i s
      exact block_decomp_seven _ _ _ _ _ _ _

/-- Witness for C9 at a concrete two-section record and the modern
template. -/
theorem claim_C9_render_contains_witness :
    ∃ html, render_html "id-1" "Test Title" "Test description"
        [⟨"Introduction", "c1"⟩, ⟨"Details", "c2"⟩]
        ⟨"#667eea", "#764ba2", "#f093fb"⟩ "modern" "2024-01-01 00:00:00" =
      some html ∧
      "Test Title".data <:+: html.data ∧
      "Test description".data <:+: html.data ∧
      containsInOrder html.data
        ([⟨"Introduction", "c1"⟩, ⟨"Details", "c2"⟩].map SectionData.heading) :=
  claim_C9_render_contains "id-1" "Test Title" "Test description"
    [⟨"Introduction", "c1"⟩, ⟨"Details", "c2"⟩]
    ⟨"#667eea", "#764ba2", "#f093fb"⟩ "2024-01-01 00:00:00" "modern"
    (by decide) (by decide)

/-- The concrete batch environment satisfies every range constraint of
the random draws. -/
theorem cbatch_valid : validBatchEnv cbatch := by
  intro i
  refine ⟨⟨?_, ?_⟩, ⟨?_, ?_⟩, ?_⟩
  · show (4/5 : ℚ) ≤ 17/20
    norm_num
  · show (17/20 : ℚ) ≤ 1
    norm_num
  · show (17/20 : ℚ) ≤ 9/10
    norm_num
  · show (9/10 : ℚ) ≤ 49/50
    norm_num
  · show validSingleEnv c4env
    unfold validSingleEnv
    exact ⟨by decide, by decide, by decide, by decide⟩

/-- C1: with every random draw in its guaranteed range, a batch of
`count ≥ 1` sites returns `some` list of exactly `count` records in
generation order — the `j`-th record is the one `_generate_single`
produces for site `j` — each with a template style from the four known
ones and with per-site jitter freshly drawn in [0.8, 1.0] × [0.85, 0.98]. -/
theorem claim_C1_generate_multiple (env : BatchEnv) (g : GeneratorState)
    (topic style : String) (mt count : ℕ)
    (hv : validBatchEnv env) (_hc : 1 ≤ count) :
    ∃ l, (generate_multiple env g topic count style mt).1 = some l ∧
      l.length = count ∧
      ∀ j, j < count →
        (l.getD j default_record).template_style = template_style_at env j ∧
        template_style_at env j ∈ template_styles ∧
        (∃ html, generate_single (env.site j) topic style mt j
          (template_style_at env j) = some (l.getD j default_record, html)) ∧
        (4/5 ≤ env.temp j ∧ env.temp j ≤ 1) ∧
        (17/20 ≤ env.topP j ∧ env.topP j ≤ 49/50) := by
  obtain ⟨l, h1, h2, h3⟩ := generate_multiple_go_spec env topic style mt count 0 g
  refine ⟨l, h1, h2, ?_⟩
  intro j hj
  have hz := h3 j hj
  simp only [Nat.zero_add] at hz
  refine ⟨?_, template_style_at_mem env j, hz, (hv j).1, (hv j).2.1⟩
  obtain ⟨html, hs⟩ := hz
  obtain ⟨html', hs'⟩ := generate_single_eq (env.site j) topic style mt j
    (template_style_at env j) (template_style_at_mem env j)
  rw [hs] at hs'
  simp only [Option.some.injEq, Prod.mk.injEq] at hs'
  rw [hs'.1]

/-- Witness for C1: a concrete two-site batch. -/
theorem claim_C1_generate_multiple_witness :
    ∃ l, (generate_multiple cbatch g0 "AI" 2 "educational" 800).1 = some l ∧
      l.length = 2 :=
  (claim_C1_generate_multiple cbatch g0 "AI" "educational" 800 2 cbatch_valid
    (by decide)).elim (fun l hl => ⟨l, hl.1, hl.2.1⟩)

/-- C4 (amended): for each of the four template styles the generated
record's `tokens_used` equals `⌊word_count(html) * 1.3⌋` — the `int()`
truncation the source performs — not the rounding the claim states. -/
theorem claim_C4_amended_tokens (env : SingleEnv) (topic style : String)
    (mt idx : ℕ) (ts : String) (hts : ts ∈ template_styles) :
    ∃ r html, generate_single env topic style mt idx ts = some (r, html) ∧
      r.tokens_used = 13 * word_count html / 10 := by
  obtain ⟨html, h⟩ := generate_single_eq env topic style mt idx ts hts
  exact ⟨_, html, h, rfl⟩

/-- Witness for C4 (amended) at the concrete site. -/
theorem claim_C4_amended_tokens_witness :
    ∃ r html, generate_single c4env "AI" "educational" 800 0 "modern" =
      some (r, html) ∧ r.tokens_used = 13 * word_count html / 10 :=
  claim_C4_amended_tokens c4env "AI" "educational" 800 0 "modern" (by decide)

/-- Counterexample to C4 as stated: a concretely generated site whose
rendered page has 223 words, so the code stores `int(223 * 1.3) = 289`
while `round(223 * 1.3) = 290`. -/
theorem claim_C4_counterexample :
    ¬ (∀ (env : SingleEnv) (topic style : String) (mt idx : ℕ) (ts : String),
        validSingleEnv env → ∀ (r : SiteRecord) (html : String),
          generate_single env topic style mt idx ts = some (r, html) →
          (r.tokens_used : ℤ) = round ((word_count html : ℚ) * (13 / 10))) := by
  intro hcl
  have h2 := hcl c4env "AI" "educational" 800 0 "modern"
    (by unfold validSingleEnv; exact ⟨by decide, by decide, by decide, by decide⟩)
    ((generate_single c4env "AI" "educational" 800 0 "modern").getD
      (default_record, "")).1
    ((generate_single c4env "AI" "educational" 800 0 "modern").getD
      (default_record, "")).2
    rfl
  have htok : ((generate_single c4env "AI" "educational" 800 0 "modern").getD
      (default_record, "")).1.tokens_used = 289 := by rfl
  have hwc : word_count ((generate_single c4env "AI" "educational" 800 0
      "modern").getD (default_record, "")).2 = 223 := by rfl
  rw [htok, hwc, round_eq] at h2
  norm_num at h2

/-- C5 (amended): a batch call leaves `api_key` and the client's model
untouched, but it does mutate the shared client: after the call the
client's `temperature` and `top_p` hold the jitter drawn for the last
site. -/
theorem claim_C5_amended_state (env : BatchEnv) (g : GeneratorState)
    (topic style : String) (mt count : ℕ) (hc : 1 ≤ count) :
    (generate_multiple env g topic count style mt).2.api_key = g.api_key ∧
    (generate_multiple env g topic count style mt).2.llm.model = g.llm.model ∧
    (generate_multiple env g topic count style mt).2.llm.temperature =
      env.temp (count - 1) ∧
    (generate_multiple env g topic count style mt).2.llm.top_p =
      env.topP (count - 1) := by
  have h := generate_multiple_go_state env topic style mt count 0 g
  rw [if_neg (by omega)] at h
  unfold generate_multiple
  rw [h]
  refine ⟨rfl, rfl, by rw [Nat.zero_add], by rw [Nat.zero_add]⟩

/-- Witness for C5 (amended) on a concrete one-site batch. -/
theorem claim_C5_amended_state_witness :
    (generate_multiple cbatch g0 "AI" 1 "educational" 800).2.api_key =
      g0.api_key ∧
    (generate_multiple cbatch g0 "AI" 1 "educational" 800).2.llm.model =
      g0.llm.model ∧
    (generate_multiple cbatch g0 "AI" 1 "educational" 800).2.llm.temperature =
      cbatch.temp 0 ∧
    (generate_multiple cbatch g0 "AI" 1 "educational" 800).2.llm.top_p =
      cbatch.topP 0 :=
  claim_C5_amended_state cbatch g0 "AI" "educational" 800 1 (by decide)

/-- Counterexample to C5 as stated: after a valid one-site batch the
generator object is not unchanged — the client's temperature was 0.9 and
is now the drawn 0.85. -/
theorem claim_C5_counterexample :
    validBatchEnv cbatch ∧
      (generate_multiple cbatch g0 "AI" 1 "educational" 800).2 ≠ g0 := by
  refine ⟨cbatch_valid, fun h => ?_⟩
  have hst := generate_multiple_go_state cbatch "AI" "educational" 800 1 0 g0
  rw [if_neg (by omega)] at hst
  unfold generate_multiple at h
  rw [hst] at h
  have hT := congrArg (fun s : GeneratorState => s.llm.temperature) h
  simp only at hT
  norm_num [cbatch, g0] at hT
